import Mathlib

/-!
Verification of the conversational-state wrapper in
`src/wishing_star/OpenAIHandler.py`.

The Python module is embedded shallowly:

* `Turn` models one `{"role": ..., "content": ...}` dictionary entry.
* `UserChatHistory` models the per-user ledger class of the same name;
  its in-place mutation becomes explicit state passing.
* `OpenAIHandler` models the gateway class; the per-user dictionary
  `chat_history_db` becomes an association list with first-key lookup
  and replace-or-append insertion.
* The external completion service (`openai.ChatCompletion.create`) is an
  oracle parameter `service : List Turn → ChatResponse`; its nested
  response fields are modelled by the structure `ChatResponse`, with the
  first choice's message content as an `Option String` (the Python value
  may be `None` at runtime).
* The three `get_current_ts()` readings inside one `chat` call (request
  time, ledger-creation time, response time) become the explicit
  parameters `request_ts`, `create_ts`, `response_ts`.
* The logger, the floating-point `default_temperature` and the API key
  have no effect on the state transitions and are not modelled.

Timestamps are `Int` (Python integers, milliseconds since epoch).
-/

/-- One role-tagged chat message, `{"role": r, "content": c}`. -/
structure Turn where
  role : String
  content : String
deriving DecidableEq, Repr

/-- `CHAT_RESET_TS: int = 10 * 60 * 1000` (line 7). -/
def CHAT_RESET_TS : Int := 10 * 60 * 1000

/-- `OPENAI_SYS_INIT_MESSAGE` (line 8).  Note that in the Python source
the string literals on lines 9-10 are separate expression statements,
not part of this constant, so the constant is line 8's literal only. -/
def OPENAI_SYS_INIT_MESSAGE : String :=
  "Now, you are playing the role as the Pokemon `Jirachi` and you will"

/-- The fixed system persona turn seeded at ledger creation (lines 27-29). -/
def systemTurn : Turn :=
  { role := "system", content := OPENAI_SYS_INIT_MESSAGE }

/-- Python's `str.startswith`: a character-sequence prefix test
(`msg.startswith(pre)` on line 44). -/
def pyStartswith (s pre : String) : Bool :=
  pre.data.isPrefixOf s.data

/-- The message normalization of lines 44-45: prepend `"Jirachi, "`
unless the message already starts with it. -/
def normalizeMsg (msg : String) : String :=
  if pyStartswith msg "Jirachi, " then msg else "Jirachi, " ++ msg

/-- The `UserChatHistory` class: per-user ledger state. -/
structure UserChatHistory where
  uid : Int
  last_communicate_ts : Int
  chat_history : List Turn
deriving DecidableEq, Repr

/-- `UserChatHistory.__init__` (lines 19-29); `now` is the value of the
`get_current_ts()` call on line 26. -/
def UserChatHistory.init (uid : Int) (now : Int) : UserChatHistory :=
  { uid := uid
    last_communicate_ts := now
    chat_history := [systemTurn] }

/-- `UserChatHistory.get_current_chat` (lines 31-47).  Returns the
updated ledger together with the returned list (which in Python is the
same object as the stored `chat_history`). -/
def UserChatHistory.get_current_chat (self : UserChatHistory) (msg : String)
    (request_ts : Int) : UserChatHistory × List Turn :=
  let hist :=
    if self.last_communicate_ts - request_ts > CHAT_RESET_TS then
      self.chat_history.take 1
    else
      self.chat_history
  let hist1 := hist ++ [{ role := "user", content := normalizeMsg msg }]
  ({ self with chat_history := hist1 }, hist1)

/-- `UserChatHistory.update_response` (lines 49-57). -/
def UserChatHistory.update_response (self : UserChatHistory) (response : String)
    (response_ts : Int) : UserChatHistory :=
  { self with
    last_communicate_ts := response_ts
    chat_history := self.chat_history ++ [{ role := "assistant", content := response }] }

/-- The structured response of the external completion service:
`response["choices"][0]["message"]["content"]` (an `Option` because the
Python value can be `None`) and the two usage counters (lines 113,
116-117). -/
structure ChatResponse where
  content : Option String
  prompt_tokens : Int
  completion_tokens : Int

/-- First-match lookup in the `chat_history_db` dictionary model. -/
def dbLookup : List (Int × UserChatHistory) → Int → Option UserChatHistory
  | [], _ => none
  | (k, v) :: rest, uid => if k = uid then some v else dbLookup rest uid

/-- Replace-or-append insertion in the `chat_history_db` dictionary
model; `db[uid] = h` in Python, and also the effect of mutating the
object stored under `uid` in place. -/
def dbInsert : List (Int × UserChatHistory) → Int → UserChatHistory →
    List (Int × UserChatHistory)
  | [], uid, h => [(uid, h)]
  | (k, v) :: rest, uid, h =>
      if k = uid then (uid, h) :: rest else (k, v) :: dbInsert rest uid h

/-- The `OpenAIHandler` class: gateway state. -/
structure OpenAIHandler where
  last_success_request_ts : Int
  minimum_request_period : Int
  model : String
  chat_history_db : List (Int × UserChatHistory)
deriving DecidableEq, Repr

/-- `OpenAIHandler.__init__` (lines 68-84); the API key and logger have
no effect on the modelled state. -/
def OpenAIHandler.init (using_gpt_4 : Bool) : OpenAIHandler :=
  { last_success_request_ts := 0
    minimum_request_period := 5 * 1000
    model := if using_gpt_4 then "gpt-4" else "gpt-3.5-turbo"
    chat_history_db := [] }

/-- The two errors `chat` can raise itself: the
`FrequentRequestRateException` of line 98 and the bare
`Exception("None Response received ...")` of line 115. -/
inductive ChatError where
  | FrequentRequestRateException
  | NoneResponse
deriving DecidableEq, Repr

/-- The ledger lookup-or-create step of `chat` (lines 100-102):
`UserChatHistory(uid)` is constructed when `uid` is absent, reading
`get_current_ts()` as `create_ts`. -/
def OpenAIHandler.lookupOrCreate (self : OpenAIHandler) (uid : Int)
    (create_ts : Int) : UserChatHistory :=
  match dbLookup self.chat_history_db uid with
  | none => UserChatHistory.init uid create_ts
  | some h => h

/-- `OpenAIHandler.chat` (lines 86-125).  `request_ts`, `create_ts` and
`response_ts` are the values of the successive `get_current_ts()` calls
(lines 96, 26 via the constructor, 112); `service` is the external
completion call of line 107.  Returns the final gateway state (Python
mutates `self` and the ledger in place, so mutations made before a raise
persist) together with the result or the raised error. -/
def OpenAIHandler.chat (self : OpenAIHandler) (msg : String) (uid : Int)
    (request_ts create_ts response_ts : Int)
    (service : List Turn → ChatResponse) :
    OpenAIHandler × Except ChatError String :=
  if request_ts - self.last_success_request_ts ≤ self.minimum_request_period then
    (self, .error .FrequentRequestRateException)
  else
    let h0 := self.lookupOrCreate uid create_ts
    let p := h0.get_current_chat msg request_ts
    let response := service p.2
    match response.content with
    | none =>
        ({ self with chat_history_db := dbInsert self.chat_history_db uid p.1 },
         .error .NoneResponse)
    | some response_msg =>
        ({ self with
            last_success_request_ts := response_ts
            chat_history_db :=
              dbInsert self.chat_history_db uid
                (p.1.update_response response_msg response_ts) },
         .ok response_msg)

/-- Number of entries stored under a given user id in the dictionary
model (a well-formed dictionary has at most one). -/
def dbCountKey : List (Int × UserChatHistory) → Int → Nat
  | [], _ => 0
  | (k, _) :: rest, uid =>
      (if k = uid then 1 else 0) + dbCountKey rest uid

/-- Ledger states reachable through the class's own operations, starting
from `UserChatHistory.__init__`. -/
inductive UserChatHistory.Reachable : UserChatHistory → Prop
  | init (uid now : Int) : Reachable (UserChatHistory.init uid now)
  | getChat (h : UserChatHistory) (msg : String) (request_ts : Int) :
      Reachable h → Reachable (h.get_current_chat msg request_ts).1
  | update (h : UserChatHistory) (response : String) (response_ts : Int) :
      Reachable h → Reachable (h.update_response response response_ts)

/-- The ledger invariant: `turns` is nonempty and `turns[0]` is the
fixed system persona turn. -/
def UserChatHistory.Inv (h : UserChatHistory) : Prop :=
  h.chat_history ≠ [] ∧ h.chat_history.head? = some systemTurn

/-- A constant external completion service, used for concrete runs. -/
def constService (r : ChatResponse) : List Turn → ChatResponse :=
  fun _ => r

theorem dbLookup_dbInsert_self (db : List (Int × UserChatHistory)) (uid : Int)
    (h : UserChatHistory) : dbLookup (dbInsert db uid h) uid = some h := by
  induction db with
  | nil => simp [dbInsert, dbLookup]
  | cons kv rest ih =>
      obtain ⟨k, v⟩ := kv
      by_cases hk : k = uid <;> simp [dbInsert, dbLookup, hk, ih]

theorem dbCountKey_eq_zero_of_lookup_none (db : List (Int × UserChatHistory))
    (uid : Int) (hnone : dbLookup db uid = none) : dbCountKey db uid = 0 := by
  induction db with
  | nil => simp [dbCountKey]
  | cons kv rest ih =>
      obtain ⟨k, v⟩ := kv
      by_cases hk : k = uid
      · simp [dbLookup, hk] at hnone
      · simp [dbLookup, hk] at hnone
        simp [dbCountKey, hk, ih hnone]

theorem dbCountKey_dbInsert_of_lookup_none (db : List (Int × UserChatHistory))
    (uid : Int) (h : UserChatHistory) (hnone : dbLookup db uid = none) :
    dbCountKey (dbInsert db uid h) uid = 1 := by
  induction db with
  | nil => simp [dbInsert, dbCountKey]
  | cons kv rest ih =>
      obtain ⟨k, v⟩ := kv
      by_cases hk : k = uid
      · simp [dbLookup, hk] at hnone
      · simp [dbLookup, hk] at hnone
        simp [dbInsert, dbCountKey, hk, ih hnone]

/-- C9: `getCurrentChat` mutates only the `turns` sequence: the owning
user id and `lastActivityTimestamp` are unchanged. -/
theorem get_current_chat_frame (h : UserChatHistory) (msg : String)
    (request_ts : Int) :
    (h.get_current_chat msg request_ts).1.last_communicate_ts
        = h.last_communicate_ts
    ∧ (h.get_current_chat msg request_ts).1.uid = h.uid := by
  constructor <;> rfl

/-- C8: `updateResponse` sets `lastActivityTimestamp` to the response
timestamp and appends exactly one assistant turn at the end, leaving
every existing turn in place (and the owning user id unchanged). -/
theorem update_response_spec (h : UserChatHistory) (response : String)
    (response_ts : Int) :
    (h.update_response response response_ts).last_communicate_ts = response_ts
    ∧ (h.update_response response response_ts).chat_history
        = h.chat_history ++ [{ role := "assistant", content := response }]
    ∧ (h.update_response response response_ts).uid = h.uid := by
  exact ⟨rfl, rfl, rfl⟩

/-- C1: whenever `requestTimestamp - lastSuccessTimestamp` is at most the
minimum request interval (5000 ms in any constructed handler), `chat`
fails with the rate-limit error and leaves the state unchanged, for every
user id — the gate is global, not per-user. -/
theorem chat_rate_limit_global (st : OpenAIHandler) (msg : String) (uid : Int)
    (request_ts create_ts response_ts : Int) (service : List Turn → ChatResponse)
    (hrate : request_ts - st.last_success_request_ts ≤ st.minimum_request_period) :
    st.chat msg uid request_ts create_ts response_ts service
      = (st, Except.error ChatError.FrequentRequestRateException)
    ∧ ∀ b : Bool, (OpenAIHandler.init b).minimum_request_period = 5 * 1000 := by
  refine ⟨?_, fun b => rfl⟩
  simp [OpenAIHandler.chat, hrate]

theorem chat_rate_limit_global_witness :
    (1000 : Int) - (OpenAIHandler.init false).last_success_request_ts
        ≤ (OpenAIHandler.init false).minimum_request_period
    ∧ (OpenAIHandler.init false).chat "hi" 2 1000 1000 1001
          (constService ⟨some "x", 0, 0⟩)
        = (OpenAIHandler.init false,
           Except.error ChatError.FrequentRequestRateException) :=
  ⟨by decide,
   (chat_rate_limit_global (OpenAIHandler.init false) "hi" 2 1000 1000 1001
      (constService ⟨some "x", 0, 0⟩) (by decide)).1⟩

/-- C3: `getCurrentChat` truncates the history to just the initial
system turn exactly when `lastActivityTimestamp - requestTimestamp >
CHAT_RESET_TS` (the comparison written precisely this way round in the
source), before appending the new user turn; otherwise no turn is
removed.  `CHAT_RESET_TS` is 600000 ms. -/
theorem get_current_chat_reset_window (h : UserChatHistory) (msg : String)
    (request_ts : Int) :
    (h.last_communicate_ts - request_ts > CHAT_RESET_TS →
      h.chat_history.head? = some systemTurn →
      (h.get_current_chat msg request_ts).1.chat_history
        = [systemTurn, { role := "user", content := normalizeMsg msg }])
    ∧ (¬ h.last_communicate_ts - request_ts > CHAT_RESET_TS →
      (h.get_current_chat msg request_ts).1.chat_history
        = h.chat_history ++ [{ role := "user", content := normalizeMsg msg }])
    ∧ CHAT_RESET_TS = 600000 := by
  refine ⟨?_, ?_, rfl⟩
  · intro hc hhead
    cases hcase : h.chat_history with
    | nil => simp [hcase] at hhead
    | cons a l =>
        rw [hcase] at hhead
        simp at hhead
        simp [UserChatHistory.get_current_chat, hc, hcase, hhead]
  · intro hc
    simp [UserChatHistory.get_current_chat, hc]

theorem get_current_chat_reset_window_witness :
    ((UserChatHistory.init 1 700000).get_current_chat "hi" 0).1.chat_history
        = [systemTurn, { role := "user", content := normalizeMsg "hi" }]
    ∧ ((UserChatHistory.init 1 0).get_current_chat "hi" 0).1.chat_history
        = (UserChatHistory.init 1 0).chat_history
            ++ [{ role := "user", content := normalizeMsg "hi" }] :=
  ⟨(get_current_chat_reset_window (UserChatHistory.init 1 700000) "hi" 0).1
      (by decide) rfl,
   (get_current_chat_reset_window (UserChatHistory.init 1 0) "hi" 0).2.1
      (by decide)⟩

/-- C4: the stored user turn's content is `"Jirachi, " ++ msg` when the
message does not already start with the persona literal, and exactly
`msg` (no double-prefixing) when it does. -/
theorem get_current_chat_persona_rule (h : UserChatHistory) (msg : String)
    (request_ts : Int) :
    (pyStartswith msg "Jirachi, " = false →
      (h.get_current_chat msg request_ts).1.chat_history.getLast?
        = some { role := "user", content := "Jirachi, " ++ msg })
    ∧ (pyStartswith msg "Jirachi, " = true →
      (h.get_current_chat msg request_ts).1.chat_history.getLast?
        = some { role := "user", content := msg }) := by
  constructor <;> intro hp <;>
    simp [UserChatHistory.get_current_chat, normalizeMsg, hp]

theorem get_current_chat_persona_rule_witness :
    ((UserChatHistory.init 1 0).get_current_chat "hi" 0).1.chat_history.getLast?
        = some { role := "user", content := "Jirachi, " ++ "hi" }
    ∧ ((UserChatHistory.init 1 0).get_current_chat "Jirachi, hi" 0).1.chat_history.getLast?
        = some { role := "user", content := "Jirachi, hi" } :=
  ⟨(get_current_chat_persona_rule (UserChatHistory.init 1 0) "hi" 0).1 (by decide),
   (get_current_chat_persona_rule (UserChatHistory.init 1 0) "Jirachi, hi" 0).2
      (by decide)⟩

/-- C5: every ledger reachable from creation through any sequence of
`getCurrentChat` and `updateResponse` operations satisfies the
invariant: `turns` is never empty and `turns[0]` is the fixed
system-role persona turn. -/
theorem ledger_invariant (h : UserChatHistory) (hr : h.Reachable) : h.Inv := by
  induction hr with
  | init uid now =>
      exact ⟨by simp [UserChatHistory.init], by simp [UserChatHistory.init]⟩
  | getChat h msg request_ts _ ih =>
      obtain ⟨hne, hhead⟩ := ih
      cases hcase : h.chat_history with
      | nil => exact absurd hcase hne
      | cons a l =>
          rw [hcase] at hhead
          simp at hhead
          constructor
          · by_cases hc : h.last_communicate_ts - request_ts > CHAT_RESET_TS <;>
              simp [UserChatHistory.get_current_chat, hcase, hc]
          · by_cases hc : h.last_communicate_ts - request_ts > CHAT_RESET_TS <;>
              simp [UserChatHistory.get_current_chat, hcase, hc, hhead]
  | update h response response_ts _ ih =>
      obtain ⟨hne, hhead⟩ := ih
      cases hcase : h.chat_history with
      | nil => exact absurd hcase hne
      | cons a l =>
          rw [hcase] at hhead
          simp at hhead
          constructor
          · simp [UserChatHistory.update_response, hcase]
          · simp [UserChatHistory.update_response, hcase, hhead]

theorem ledger_invariant_witness : (UserChatHistory.init 1 0).Inv :=
  ledger_invariant (UserChatHistory.init 1 0) (UserChatHistory.Reachable.init 1 0)

/-- C10: any `chat` call that fails with the rate-limit error leaves the
gateway state completely unchanged: no ledger is created, no turn is
appended anywhere, and `lastSuccessTimestamp` keeps its value. -/
theorem chat_rate_error_frame (st : OpenAIHandler) (msg : String) (uid : Int)
    (rts cts sts : Int) (service : List Turn → ChatResponse)
    (herr : (st.chat msg uid rts cts sts service).2
      = Except.error ChatError.FrequentRequestRateException) :
    (st.chat msg uid rts cts sts service).1 = st := by
  by_cases hrate : rts - st.last_success_request_ts ≤ st.minimum_request_period
  · simp [OpenAIHandler.chat, hrate]
  · exfalso
    simp only [OpenAIHandler.chat, hrate, if_neg, if_false] at herr
    split at herr <;> simp_all

theorem chat_rate_error_frame_witness :
    ((OpenAIHandler.init false).chat "hi" 1 1000 1000 1001
        (constService ⟨some "x", 0, 0⟩)).1 = OpenAIHandler.init false :=
  chat_rate_error_frame (OpenAIHandler.init false) "hi" 1 1000 1000 1001
    (constService ⟨some "x", 0, 0⟩) rfl

/-- C6: after any successful `chat` call that returns `reply`, the
caller's ledger ends with the prefixed user turn followed by the
assistant turn carrying `reply`. -/
theorem chat_success_round_trip (st : OpenAIHandler) (msg : String) (uid : Int)
    (rts cts sts : Int) (service : List Turn → ChatResponse) (reply : String)
    (hok : (st.chat msg uid rts cts sts service).2 = Except.ok reply) :
    ∃ h1 rest,
      dbLookup (st.chat msg uid rts cts sts service).1.chat_history_db uid = some h1
      ∧ h1.chat_history = rest ++
          [{ role := "user", content := normalizeMsg msg },
           { role := "assistant", content := reply }] := by
  by_cases hrate : rts - st.last_success_request_ts ≤ st.minimum_request_period
  · simp [OpenAIHandler.chat, hrate] at hok
  · cases hsvc : (service ((st.lookupOrCreate uid cts).get_current_chat msg rts).2).content with
    | none => simp [OpenAIHandler.chat, hrate, hsvc] at hok
    | some r =>
        have hr : r = reply := by
          simpa [OpenAIHandler.chat, hrate, hsvc] using hok
        refine ⟨((st.lookupOrCreate uid cts).get_current_chat msg rts).1.update_response reply sts,
                (if (st.lookupOrCreate uid cts).last_communicate_ts - rts > CHAT_RESET_TS
                 then (st.lookupOrCreate uid cts).chat_history.take 1
                 else (st.lookupOrCreate uid cts).chat_history), ?_, ?_⟩
        · simp [OpenAIHandler.chat, hrate, hsvc, hr, dbLookup_dbInsert_self]
        · by_cases hc : (st.lookupOrCreate uid cts).last_communicate_ts - rts > CHAT_RESET_TS <;>
            simp [UserChatHistory.update_response, UserChatHistory.get_current_chat, hc]

theorem chat_success_round_trip_witness :
    ∃ h1 rest,
      dbLookup ((OpenAIHandler.init false).chat "hi" 1 6000 6000 6001
          (constService ⟨some "hello", 3, 4⟩)).1.chat_history_db 1 = some h1
      ∧ h1.chat_history = rest ++
          [{ role := "user", content := normalizeMsg "hi" },
           { role := "assistant", content := "hello" }] :=
  chat_success_round_trip (OpenAIHandler.init false) "hi" 1 6000 6000 6001
    (constService ⟨some "hello", 3, 4⟩) "hello" rfl

/-- C7: the first `chat` call for a user with no prior ledger that
passes the rate check creates exactly one ledger entry for that user,
and the created ledger is seeded with `[systemTurn]` as its history and
the creation-time timestamp as its `lastActivityTimestamp`. -/
theorem chat_first_call_creates_one_ledger (st : OpenAIHandler) (msg : String)
    (uid : Int) (rts cts sts : Int) (service : List Turn → ChatResponse)
    (hfresh : dbLookup st.chat_history_db uid = none)
    (hrate : ¬ rts - st.last_success_request_ts ≤ st.minimum_request_period) :
    dbCountKey (st.chat msg uid rts cts sts service).1.chat_history_db uid = 1
    ∧ st.lookupOrCreate uid cts = UserChatHistory.init uid cts
    ∧ (UserChatHistory.init uid cts).chat_history = [systemTurn]
    ∧ (UserChatHistory.init uid cts).last_communicate_ts = cts := by
  refine ⟨?_, by simp [OpenAIHandler.lookupOrCreate, hfresh], rfl, rfl⟩
  cases hsvc : (service ((st.lookupOrCreate uid cts).get_current_chat msg rts).2).content with
  | none =>
      simp [OpenAIHandler.chat, hrate, hsvc,
        dbCountKey_dbInsert_of_lookup_none _ _ _ hfresh]
  | some r =>
      simp [OpenAIHandler.chat, hrate, hsvc,
        dbCountKey_dbInsert_of_lookup_none _ _ _ hfresh]

theorem chat_first_call_creates_one_ledger_witness :
    dbCountKey ((OpenAIHandler.init false).chat "hi" 1 6000 6000 6001
        (constService ⟨some "hello", 3, 4⟩)).1.chat_history_db 1 = 1
    ∧ (OpenAIHandler.init false).lookupOrCreate 1 6000 = UserChatHistory.init 1 6000
    ∧ (UserChatHistory.init 1 6000).chat_history = [systemTurn]
    ∧ (UserChatHistory.init 1 6000).last_communicate_ts = 6000 :=
  chat_first_call_creates_one_ledger (OpenAIHandler.init false) "hi" 1 6000 6000 6001
    (constService ⟨some "hello", 3, 4⟩) rfl (by decide)

/-- C2 counterexample: when the external service returns the *empty
string* as the first choice's content, `chat` does NOT fail — the
source only raises on `None` (line 114) — it returns the empty string as
a success. -/
theorem chat_empty_reply_counterexample :
    ((OpenAIHandler.init false).chat "hi" 1 6000 6000 6001
        (constService ⟨some "", 0, 0⟩)).2 = Except.ok ""
    ∧ ((OpenAIHandler.init false).chat "hi" 1 6000 6000 6001
        (constService ⟨some "", 0, 0⟩)).2 ≠ Except.error ChatError.NoneResponse :=
  ⟨rfl, fun h => nomatch h⟩

/-- C2 amended: when the external service's first choice content is
*absent* (`None`), `chat` fails with the none-response error, the user's
ledger is left exactly at the `getCurrentChat` state — its last turn is
the new user turn, with no assistant turn appended — and
`lastSuccessTimestamp` is not updated.  (An empty-string reply is not
covered: it is treated as a success.) -/
theorem chat_none_reply_error_state (st : OpenAIHandler) (msg : String)
    (uid : Int) (rts cts sts : Int) (service : List Turn → ChatResponse)
    (hrate : ¬ rts - st.last_success_request_ts ≤ st.minimum_request_period)
    (hnone : (service ((st.lookupOrCreate uid cts).get_current_chat msg rts).2).content
      = none) :
    (st.chat msg uid rts cts sts service).2 = Except.error ChatError.NoneResponse
    ∧ dbLookup (st.chat msg uid rts cts sts service).1.chat_history_db uid
        = some ((st.lookupOrCreate uid cts).get_current_chat msg rts).1
    ∧ ((st.lookupOrCreate uid cts).get_current_chat msg rts).1.chat_history.getLast?
        = some { role := "user", content := normalizeMsg msg }
    ∧ (st.chat msg uid rts cts sts service).1.last_success_request_ts
        = st.last_success_request_ts := by
  simp only [UserChatHistory.get_current_chat] at hnone
  refine ⟨?_, ?_, ?_, ?_⟩ <;>
    simp [OpenAIHandler.chat, hrate, hnone, dbLookup_dbInsert_self,
      UserChatHistory.get_current_chat]

theorem chat_none_reply_error_state_witness :
    ((OpenAIHandler.init false).chat "hi" 1 6000 6000 6001
        (constService ⟨none, 0, 0⟩)).2 = Except.error ChatError.NoneResponse
    ∧ dbLookup ((OpenAIHandler.init false).chat "hi" 1 6000 6000 6001
          (constService ⟨none, 0, 0⟩)).1.chat_history_db 1
        = some (((OpenAIHandler.init false).lookupOrCreate 1 6000).get_current_chat
            "hi" 6000).1
    ∧ (((OpenAIHandler.init false).lookupOrCreate 1 6000).get_current_chat
          "hi" 6000).1.chat_history.getLast?
        = some { role := "user", content := normalizeMsg "hi" }
    ∧ ((OpenAIHandler.init false).chat "hi" 1 6000 6000 6001
          (constService ⟨none, 0, 0⟩)).1.last_success_request_ts
        = (OpenAIHandler.init false).last_success_request_ts :=
  chat_none_reply_error_state (OpenAIHandler.init false) "hi" 1 6000 6000 6001
    (constService ⟨none, 0, 0⟩) (by decide) rfl
